import Mathlib

/-!
Shallow embedding of `crates/gpui/src/video.rs` (the `VideoFrame` type and
its constructors and accessors), together with theorems checking the
natural-language specification against it.

Modelling conventions:
* Rust `u32` values are `Nat`s; where the source performs `u32` arithmetic
  that can overflow, the embedding makes the `2^32` bound explicit.
* A Rust byte buffer (`Vec<u8>` / `Arc<Vec<u8>>`) is a `List Nat`; the
  `Arc` wrapper only affects ownership, which value semantics erases, so
  both constructors receive the same buffer type.
* Debug builds differ from release builds: `debug_assert_eq!` and the
  overflow check on `u32` multiplication are active only in debug builds.
  The release-build constructors are total functions; the debug-build
  constructors return `Option`, with `none` standing for a panic.
* The platform handles (`CVPixelBuffer`, `ID3D11Texture2D`) are external
  opaque types; they are modelled as structures carrying exactly what the
  source reads from them (queried dimensions for CoreVideo, an opaque
  identity for D3D11).
-/

/-- Model of the external macOS `core_video::pixel_buffer::CVPixelBuffer`
handle: the source only calls `get_width`/`get_height` on it, which return
`usize` values, modelled as `Nat`. -/
structure CVPixelBuffer where
  width : Nat
  height : Nat
deriving DecidableEq, Repr

/-- Embeds `CVPixelBuffer::get_width`. -/
def CVPixelBuffer.get_width (b : CVPixelBuffer) : Nat := b.width

/-- Embeds `CVPixelBuffer::get_height`. -/
def CVPixelBuffer.get_height (b : CVPixelBuffer) : Nat := b.height

/-- Model of the external Windows `ID3D11Texture2D` COM handle: opaque to
this module, which never reads anything from it. -/
structure ID3D11Texture2D where
  handle : Nat
deriving DecidableEq, Repr

/-- Embeds `VideoFrameData`: the inner data of a video frame.  The source compiles
`CoreVideo` only on macOS and `D3D11` only on Windows; the embedding keeps
all three variants side by side. -/
inductive VideoFrameData where
  /-- A CPU buffer in BGRA format (`Bgra(Arc<Vec<u8>>)`). -/
  | Bgra (buffer : List Nat)
  /-- A macOS CoreVideo pixel buffer (zero-copy path). -/
  | CoreVideo (buffer : CVPixelBuffer)
  /-- A Windows D3D11 texture (zero-copy path). -/
  | D3D11 (texture : ID3D11Texture2D) (subresource_index : Nat)
deriving DecidableEq, Repr

/-- Embeds `VideoFrame`: data plus pixel dimensions (`u32` in the source). -/
structure VideoFrame where
  data : VideoFrameData
  width : Nat
  height : Nat
deriving DecidableEq, Repr

namespace VideoFrame

/-- Embeds `VideoFrame::from_bgra`, release build (the `debug_assert_eq!` is
compiled out, so construction is unconditional). -/
def from_bgra (buffer : List Nat) (width height : Nat) : VideoFrame :=
  { data := VideoFrameData.Bgra buffer, width := width, height := height }

/-- Embeds `VideoFrame::from_bgra_arc`, release build.  The source differs from
`from_bgra` only in taking an already reference-counted buffer. -/
def from_bgra_arc (buffer : List Nat) (width height : Nat) : VideoFrame :=
  { data := VideoFrameData.Bgra buffer, width := width, height := height }

/-- Debug-build `u32` multiplication: panics (`none`) when the product
overflows `u32`. -/
def checkedMulU32 (a b : Nat) : Option Nat :=
  if a * b < 2 ^ 32 then some (a * b) else none

/-- Embeds `VideoFrame::from_bgra`, debug build: `width * height * 4` is computed
in `u32` arithmetic (panicking on overflow), then `debug_assert_eq!`
compares it with `buffer.len()` (panicking on mismatch).  `none` models a
panic. -/
def from_bgra_dbg (buffer : List Nat) (width height : Nat) : Option VideoFrame :=
  (checkedMulU32 width height).bind fun wh =>
    (checkedMulU32 wh 4).bind fun n =>
      if buffer.length = n then some (from_bgra buffer width height) else none

/-- Embeds `VideoFrame::from_bgra_arc`, debug build. -/
def from_bgra_arc_dbg (buffer : List Nat) (width height : Nat) : Option VideoFrame :=
  (checkedMulU32 width height).bind fun wh =>
    (checkedMulU32 wh 4).bind fun n =>
      if buffer.length = n then some (from_bgra_arc buffer width height) else none

/-- Embeds `VideoFrame::from_cv_pixel_buffer` (macOS): width and height are read
from the handle itself via `get_width() as u32` / `get_height() as u32`;
the `as u32` cast from `usize` truncates modulo `2^32`. -/
def from_cv_pixel_buffer (buffer : CVPixelBuffer) : VideoFrame :=
  { data := VideoFrameData.CoreVideo buffer
    width := buffer.get_width % 2 ^ 32
    height := buffer.get_height % 2 ^ 32 }

/-- Embeds `VideoFrame::from_d3d11_texture` (Windows): width and height are
caller-supplied `u32` values, stored as given. -/
def from_d3d11_texture (texture : ID3D11Texture2D)
    (subresource_index width height : Nat) : VideoFrame :=
  { data := VideoFrameData.D3D11 texture subresource_index
    width := width, height := height }

/-- Embeds `VideoFrame::size`. -/
def size (f : VideoFrame) : Nat × Nat := (f.width, f.height)

/-- Embeds `VideoFrame::as_bytes`: `Some` of the backing bytes for the `Bgra`
variant, `None` for both GPU-backed variants. -/
def as_bytes (f : VideoFrame) : Option (List Nat) :=
  match f.data with
  | VideoFrameData.Bgra buffer => some buffer
  | VideoFrameData.CoreVideo _ => none
  | VideoFrameData.D3D11 _ _ => none

end VideoFrame

/-- The short variant tag the `Debug` implementation selects with its
inner `match`. -/
def VideoFrameData.tag : VideoFrameData → String
  | VideoFrameData.Bgra _ => "Bgra"
  | VideoFrameData.CoreVideo _ => "CoreVideo"
  | VideoFrameData.D3D11 _ _ => "D3D11"

/-- Embeds `impl Debug for VideoFrame`: `debug_struct("VideoFrame")` with fields
`width`, `height`, and `data` holding the variant tag (a `&str`, which the
formatter prints quoted).  Neither pixel bytes nor handle contents are
formatted. -/
def VideoFrame.debugFmt (f : VideoFrame) : String :=
  "VideoFrame \x7b width: " ++ toString f.width ++ ", height: "
    ++ toString f.height ++ ", data: \"" ++ f.data.tag ++ "\" \x7d"

/-- Embeds `#[derive(Clone)]` on `VideoFrameData`: each variant clones its
fields.  `Arc::clone` and the platform reference-count bumps yield the
same value, so the clone is value-identical. -/
def VideoFrameData.clone : VideoFrameData → VideoFrameData
  | VideoFrameData.Bgra buffer => VideoFrameData.Bgra buffer
  | VideoFrameData.CoreVideo buffer => VideoFrameData.CoreVideo buffer
  | VideoFrameData.D3D11 t i => VideoFrameData.D3D11 t i

/-- Embeds `#[derive(Clone)]` on `VideoFrame`: field-wise clone. -/
def VideoFrame.clone (f : VideoFrame) : VideoFrame :=
  { data := f.data.clone, width := f.width, height := f.height }

/-- The public operations callable on an existing `VideoFrame` value
(`size`, `as_bytes`, the derived `clone`, and `Debug` formatting). -/
inductive FrameOp where
  | size
  | asBytes
  | clone
  | debugFmt
deriving DecidableEq, Repr

/-- What a public operation returns. -/
inductive FrameOpResult where
  | sizeR (p : Nat × Nat)
  | bytesR (o : Option (List Nat))
  | frameR (f : VideoFrame)
  | strR (s : String)
deriving DecidableEq, Repr

/-- Running one public operation on a frame: every method in the source
takes `&self`, so the receiver after the call is the frame itself. -/
def applyFrameOp (f : VideoFrame) : FrameOp → FrameOpResult × VideoFrame
  | FrameOp.size => (FrameOpResult.sizeR f.size, f)
  | FrameOp.asBytes => (FrameOpResult.bytesR f.as_bytes, f)
  | FrameOp.clone => (FrameOpResult.frameR f.clone, f)
  | FrameOp.debugFmt => (FrameOpResult.strR f.debugFmt, f)

/-- Running a sequence of public operations on a frame. -/
def runFrameOps (f : VideoFrame) (ops : List FrameOp) : VideoFrame :=
  ops.foldl (fun g op => (applyFrameOp g op).2) f

/-- Auxiliary: a step of `runFrameOps` never changes the frame, because
every method on `VideoFrame` takes `&self`. -/
theorem applyFrameOp_snd (f : VideoFrame) (op : FrameOp) : (applyFrameOp f op).2 = f := by
  cases op <;> rfl

/-- Auxiliary characterization of the debug-build `from_bgra`: it succeeds
exactly when the `u32` product `width * height * 4` does not overflow and
matches the buffer length. -/
theorem from_bgra_dbg_eq (buf : List Nat) (w h : Nat) :
    VideoFrame.from_bgra_dbg buf w h =
      if w * h * 4 < 2 ^ 32 ∧ buf.length = w * h * 4
      then some (VideoFrame.from_bgra buf w h) else none := by
  unfold VideoFrame.from_bgra_dbg VideoFrame.checkedMulU32
  by_cases h1 : w * h < 2 ^ 32
  · simp only [if_pos h1, Option.some_bind]
    by_cases h2 : w * h * 4 < 2 ^ 32
    · simp only [if_pos h2, Option.some_bind]
      by_cases h3 : buf.length = w * h * 4
      · rw [if_pos h3, if_pos ⟨h2, h3⟩]
      · rw [if_neg h3, if_neg fun hc => h3 hc.2]
    · simp only [if_neg h2, Option.none_bind]
      rw [if_neg fun hc => h2 hc.1]
  · have h2 : ¬ w * h * 4 < 2 ^ 32 := fun hlt =>
      h1 (lt_of_le_of_lt (Nat.le_mul_of_pos_right _ (by decide)) hlt)
    simp only [if_neg h1, Option.none_bind]
    rw [if_neg fun hc => h2 hc.1]

/-- Auxiliary characterization of the debug-build `from_bgra_arc`; its
body is that of `from_bgra` up to the buffer ownership the embedding
erases. -/
theorem from_bgra_arc_dbg_eq (buf : List Nat) (w h : Nat) :
    VideoFrame.from_bgra_arc_dbg buf w h =
      if w * h * 4 < 2 ^ 32 ∧ buf.length = w * h * 4
      then some (VideoFrame.from_bgra_arc buf w h) else none :=
  from_bgra_dbg_eq buf w h

/-- C1: for every width > 0, height > 0, and buffer of length exactly
`width * height * 4`, `from_bgra` yields a frame whose `as_bytes` is `Some`
of exactly the input bytes and whose `size` is `(width, height)`. -/
theorem C1_from_bgra_roundtrip (width height : Nat) (buf : List Nat)
    (hw : 0 < width) (hh : 0 < height) (hlen : buf.length = width * height * 4) :
    (VideoFrame.from_bgra buf width height).as_bytes = some buf ∧
    (VideoFrame.from_bgra buf width height).size = (width, height) :=
  ⟨rfl, rfl⟩

/-- Witness for C1 at width = 1, height = 1, a 4-byte buffer. -/
theorem C1_from_bgra_roundtrip_witness :
    (VideoFrame.from_bgra [9, 8, 7, 6] 1 1).as_bytes = some [9, 8, 7, 6] ∧
    (VideoFrame.from_bgra [9, 8, 7, 6] 1 1).size = (1, 1) :=
  C1_from_bgra_roundtrip 1 1 [9, 8, 7, 6] (by decide) (by decide) (by decide)

/-- C2: `as_bytes` is `Some` exactly when the active variant is `Bgra`;
frames from the GPU-backed constructors (CoreVideo on macOS, D3D11 on
Windows) have `as_bytes = none` and `size` equal to the dimensions queried
from the handle (CoreVideo) or passed by the caller (D3D11). -/
theorem C2_as_bytes_iff_bgra :
    (∀ f : VideoFrame,
      (∃ bs, f.as_bytes = some bs) ↔ (∃ buf, f.data = VideoFrameData.Bgra buf)) ∧
    (∀ b : CVPixelBuffer, b.get_width < 2 ^ 32 → b.get_height < 2 ^ 32 →
      (VideoFrame.from_cv_pixel_buffer b).as_bytes = none ∧
      (VideoFrame.from_cv_pixel_buffer b).size = (b.get_width, b.get_height)) ∧
    (∀ (t : ID3D11Texture2D) (i width height : Nat),
      (VideoFrame.from_d3d11_texture t i width height).as_bytes = none ∧
      (VideoFrame.from_d3d11_texture t i width height).size = (width, height)) := by
  refine ⟨fun f => ?_, fun b hw hh => ?_, fun t i width height => ⟨rfl, rfl⟩⟩
  · obtain ⟨d, w, h⟩ := f
    cases d <;> simp [VideoFrame.as_bytes]
  · refine ⟨rfl, ?_⟩
    show (b.get_width % 2 ^ 32, b.get_height % 2 ^ 32) = (b.get_width, b.get_height)
    rw [Nat.mod_eq_of_lt hw, Nat.mod_eq_of_lt hh]

/-- Witness for C2 at a concrete CoreVideo handle and D3D11 texture. -/
theorem C2_as_bytes_iff_bgra_witness :
    ((VideoFrame.from_cv_pixel_buffer ⟨1920, 1080⟩).as_bytes = none ∧
     (VideoFrame.from_cv_pixel_buffer ⟨1920, 1080⟩).size = (1920, 1080)) ∧
    ((VideoFrame.from_d3d11_texture ⟨7⟩ 0 640 480).as_bytes = none ∧
     (VideoFrame.from_d3d11_texture ⟨7⟩ 0 640 480).size = (640, 480)) :=
  ⟨C2_as_bytes_iff_bgra.2.1 ⟨1920, 1080⟩ (by decide) (by decide),
   C2_as_bytes_iff_bgra.2.2 ⟨7⟩ 0 640 480⟩

/-- C3: a buffer whose length differs from `width * height * 4` makes the
debug-build constructors panic (`none`); the release-build constructors
perform no check and always succeed; and the debug-build constructors
succeed exactly when the `u32` product does not overflow and the length
matches, the only failure conditions in the module. -/
theorem C3_length_check_debug_only (width height : Nat) (buf : List Nat) :
    (buf.length ≠ width * height * 4 →
      VideoFrame.from_bgra_dbg buf width height = none ∧
      VideoFrame.from_bgra_arc_dbg buf width height = none) ∧
    (VideoFrame.from_bgra buf width height =
        { data := VideoFrameData.Bgra buf, width := width, height := height } ∧
      VideoFrame.from_bgra_arc buf width height =
        { data := VideoFrameData.Bgra buf, width := width, height := height }) ∧
    (VideoFrame.from_bgra_dbg buf width height
        = some (VideoFrame.from_bgra buf width height) ↔
      width * height * 4 < 2 ^ 32 ∧ buf.length = width * height * 4) ∧
    (VideoFrame.from_bgra_arc_dbg buf width height
        = some (VideoFrame.from_bgra_arc buf width height) ↔
      width * height * 4 < 2 ^ 32 ∧ buf.length = width * height * 4) := by
  have e1 := from_bgra_dbg_eq buf width height
  have e2 := from_bgra_arc_dbg_eq buf width height
  refine ⟨fun hne => ?_, ⟨rfl, rfl⟩, ?_, ?_⟩
  · rw [e1, e2, if_neg (fun hc => hne hc.2), if_neg (fun hc => hne hc.2)]
    exact ⟨rfl, rfl⟩
  · rw [e1]
    by_cases hc : width * height * 4 < 2 ^ 32 ∧ buf.length = width * height * 4
    · simp [hc]
    · simp [hc]
  · rw [e2]
    by_cases hc : width * height * 4 < 2 ^ 32 ∧ buf.length = width * height * 4
    · simp [hc]
    · simp [hc]

/-- Witness for C3 at width = 2, height = 2 and a 10-byte buffer. -/
theorem C3_length_check_debug_only_witness :
    (VideoFrame.from_bgra_dbg (List.replicate 10 0) 2 2 = none ∧
     VideoFrame.from_bgra_arc_dbg (List.replicate 10 0) 2 2 = none) ∧
    VideoFrame.from_bgra (List.replicate 10 0) 2 2 =
      { data := VideoFrameData.Bgra (List.replicate 10 0), width := 2, height := 2 } :=
  ⟨(C3_length_check_debug_only 2 2 (List.replicate 10 0)).1 (by decide),
   (C3_length_check_debug_only 2 2 (List.replicate 10 0)).2.1.1⟩

/-- C4: `from_bgra_arc` on a shared buffer and `from_bgra` on an owned
buffer with equal contents are observationally equivalent through
`as_bytes` and `size` (and their debug builds agree as well). -/
theorem C4_arc_owned_equivalent (buf : List Nat) (width height : Nat) :
    (VideoFrame.from_bgra_arc buf width height).as_bytes
        = (VideoFrame.from_bgra buf width height).as_bytes ∧
    (VideoFrame.from_bgra_arc buf width height).size
        = (VideoFrame.from_bgra buf width height).size ∧
    VideoFrame.from_bgra_arc_dbg buf width height
        = VideoFrame.from_bgra_dbg buf width height :=
  ⟨rfl, rfl, rfl⟩

/-- C5: the derived clone of a frame is observationally identical to the
original: same variant data, same bytes, same dimensions, so `as_bytes`
and `size` on the clone return what the original returned. -/
theorem C5_clone_preserves_observations (f : VideoFrame) :
    f.clone.as_bytes = f.as_bytes ∧ f.clone.size = f.size ∧
    f.clone.data = f.data ∧ f.clone.width = f.width ∧ f.clone.height = f.height := by
  obtain ⟨d, w, h⟩ := f
  cases d <;>
    simp [VideoFrame.clone, VideoFrameData.clone, VideoFrame.as_bytes, VideoFrame.size]

/-- C6: the debug representation contains the width, the height, and the
variant tag; it is a function of those three alone (so it never contains
pixel bytes or handle contents); and for a 4x4 `Bgra` frame it is exactly
the string naming the tag and both dimensions. -/
theorem C6_debug_format (f g : VideoFrame) :
    (∃ a b, f.debugFmt = a ++ toString f.width ++ b) ∧
    (∃ a b, f.debugFmt = a ++ toString f.height ++ b) ∧
    (∃ a b, f.debugFmt = a ++ f.data.tag ++ b) ∧
    (f.width = g.width → f.height = g.height → f.data.tag = g.data.tag →
      f.debugFmt = g.debugFmt) ∧
    (VideoFrame.from_bgra (List.replicate 64 0) 4 4).debugFmt
      = "VideoFrame \x7b width: 4, height: 4, data: \"Bgra\" \x7d" := by
  refine ⟨⟨"VideoFrame \x7b width: ",
      ", height: " ++ toString f.height ++ ", data: \"" ++ f.data.tag ++ "\" \x7d", ?_⟩,
    ⟨"VideoFrame \x7b width: " ++ toString f.width ++ ", height: ",
      ", data: \"" ++ f.data.tag ++ "\" \x7d", ?_⟩,
    ⟨"VideoFrame \x7b width: " ++ toString f.width ++ ", height: "
        ++ toString f.height ++ ", data: \"", "\" \x7d", ?_⟩,
    fun h1 h2 h3 => by simp [VideoFrame.debugFmt, h1, h2, h3], rfl⟩ <;>
  simp [VideoFrame.debugFmt, String.append_assoc]

/-- Witness for C6: two 4x4 `Bgra` frames with different pixel bytes have
the same debug representation. -/
theorem C6_debug_format_witness :
    (VideoFrame.from_bgra (List.replicate 64 0) 4 4).debugFmt
      = (VideoFrame.from_bgra (List.replicate 64 255) 4 4).debugFmt :=
  (C6_debug_format (VideoFrame.from_bgra (List.replicate 64 0) 4 4)
    (VideoFrame.from_bgra (List.replicate 64 255) 4 4)).2.2.2.1 rfl rfl rfl

/-- C7: no public operation mutates a frame: running any sequence of
`size`, `as_bytes`, `clone`, and debug-formatting calls leaves the frame,
hence its variant, dimensions, and backing bytes, unchanged. -/
theorem C7_frames_immutable (f : VideoFrame) (ops : List FrameOp) :
    runFrameOps f ops = f ∧
    (runFrameOps f ops).data = f.data ∧
    (runFrameOps f ops).width = f.width ∧
    (runFrameOps f ops).height = f.height := by
  have key : runFrameOps f ops = f := by
    induction ops with
    | nil => rfl
    | cons op rest ih =>
      show runFrameOps (applyFrameOp f op).2 rest = f
      rw [applyFrameOp_snd]
      exact ih
  exact ⟨key, by rw [key], by rw [key], by rw [key]⟩

/-- C8: `from_cv_pixel_buffer` takes its dimensions from the handle's own
`get_width`/`get_height` (there are no caller-supplied dimensions) and
tags the backing `CoreVideo`, so `size` returns the queried dimensions. -/
theorem C8_cv_dimensions_from_handle (b : CVPixelBuffer)
    (hw : b.get_width < 2 ^ 32) (hh : b.get_height < 2 ^ 32) :
    (VideoFrame.from_cv_pixel_buffer b).size = (b.get_width, b.get_height) ∧
    (VideoFrame.from_cv_pixel_buffer b).data = VideoFrameData.CoreVideo b := by
  refine ⟨?_, rfl⟩
  show (b.get_width % 2 ^ 32, b.get_height % 2 ^ 32) = (b.get_width, b.get_height)
  rw [Nat.mod_eq_of_lt hw, Nat.mod_eq_of_lt hh]

/-- Witness for C8 at a 1280x720 handle. -/
theorem C8_cv_dimensions_from_handle_witness :
    (VideoFrame.from_cv_pixel_buffer ⟨1280, 720⟩).size = (1280, 720) ∧
    (VideoFrame.from_cv_pixel_buffer ⟨1280, 720⟩).data
      = VideoFrameData.CoreVideo ⟨1280, 720⟩ :=
  C8_cv_dimensions_from_handle ⟨1280, 720⟩ (by decide) (by decide)

/-- C9: the length check computes `width * height * 4` in `u32`
arithmetic, so whenever the mathematical value reaches `2^32` the
debug-build constructors panic on overflow even when the buffer length
equals the true mathematical product, while the release-build
constructors (which have no check) still succeed. -/
theorem C9_u32_overflow_in_check (width height : Nat) (buf : List Nat)
    (hw : width < 2 ^ 32) (hh : height < 2 ^ 32)
    (hov : 2 ^ 32 ≤ width * height * 4) (hlen : buf.length = width * height * 4) :
    VideoFrame.from_bgra_dbg buf width height = none ∧
    VideoFrame.from_bgra_arc_dbg buf width height = none ∧
    VideoFrame.from_bgra buf width height =
      { data := VideoFrameData.Bgra buf, width := width, height := height } ∧
    VideoFrame.from_bgra_arc buf width height =
      { data := VideoFrameData.Bgra buf, width := width, height := height } := by
  have hc : ¬ (width * height * 4 < 2 ^ 32 ∧ buf.length = width * height * 4) :=
    fun hcon => absurd hcon.1 (Nat.not_lt.mpr hov)
  exact ⟨by rw [from_bgra_dbg_eq, if_neg hc],
    by rw [from_bgra_arc_dbg_eq, if_neg hc], rfl, rfl⟩

/-- Witness for C9 at width = 2^31, height = 1 and a buffer of the true
mathematical length 2^33. -/
theorem C9_u32_overflow_in_check_witness :
    VideoFrame.from_bgra_dbg (List.replicate (2 ^ 31 * 1 * 4) 0) (2 ^ 31) 1 = none ∧
    VideoFrame.from_bgra_arc_dbg (List.replicate (2 ^ 31 * 1 * 4) 0) (2 ^ 31) 1 = none ∧
    VideoFrame.from_bgra (List.replicate (2 ^ 31 * 1 * 4) 0) (2 ^ 31) 1 =
      { data := VideoFrameData.Bgra (List.replicate (2 ^ 31 * 1 * 4) 0),
        width := 2 ^ 31, height := 1 } ∧
    VideoFrame.from_bgra_arc (List.replicate (2 ^ 31 * 1 * 4) 0) (2 ^ 31) 1 =
      { data := VideoFrameData.Bgra (List.replicate (2 ^ 31 * 1 * 4) 0),
        width := 2 ^ 31, height := 1 } :=
  C9_u32_overflow_in_check (2 ^ 31) 1 (List.replicate (2 ^ 31 * 1 * 4) 0)
    (by decide) (by decide) (by decide) (List.length_replicate _ _)

/-- C10: zero width or zero height with a length-0 buffer passes the
debug-build check (no positivity check exists) in every build, and the
resulting frame reports the zero-containing size with `as_bytes` being
`Some` of the empty byte view. -/
theorem C10_zero_dimensions_ok (width height : Nat) (buf : List Nat)
    (hz : width = 0 ∨ height = 0) (hlen : buf.length = 0) :
    VideoFrame.from_bgra_dbg buf width height
      = some (VideoFrame.from_bgra buf width height) ∧
    VideoFrame.from_bgra_arc_dbg buf width height
      = some (VideoFrame.from_bgra_arc buf width height) ∧
    (VideoFrame.from_bgra buf width height).as_bytes = some [] ∧
    (VideoFrame.from_bgra buf width height).size = (width, height) := by
  have hbuf : buf = [] := List.length_eq_zero.mp hlen
  have hmul : width * height * 4 = 0 := by
    rcases hz with hz | hz <;> simp [hz]
  subst hbuf
  have hc : width * height * 4 < 2 ^ 32 ∧
      ([] : List Nat).length = width * height * 4 := by
    rw [hmul]
    exact ⟨by decide, rfl⟩
  exact ⟨by rw [from_bgra_dbg_eq, if_pos hc],
    by rw [from_bgra_arc_dbg_eq, if_pos hc], rfl, rfl⟩

/-- Witness for C10 at width = 0, height = 5 and the empty buffer. -/
theorem C10_zero_dimensions_ok_witness :
    VideoFrame.from_bgra_dbg [] 0 5 = some (VideoFrame.from_bgra [] 0 5) ∧
    VideoFrame.from_bgra_arc_dbg [] 0 5 = some (VideoFrame.from_bgra_arc [] 0 5) ∧
    (VideoFrame.from_bgra [] 0 5).as_bytes = some [] ∧
    (VideoFrame.from_bgra [] 0 5).size = (0, 5) :=
  C10_zero_dimensions_ok 0 5 [] (Or.inl rfl) rfl
